import Mathlib

/-!
Shallow embedding of the close-file crate (`src/src/lib.rs`).

The crate provides one operation, `Closable::close(self) -> Result<(), CloseError>`,
implemented for `std::fs::File` twice: once under `cfg(unix)` (the descriptor is
released by `libc::close` regardless of outcome) and once under `cfg(windows)`
(the handle survives a failed `kernel32::CloseHandle`).  `CloseError` wraps the
last OS error together with the raw descriptor (unix) or raw handle (windows).

The OS collaborators (`libc::close` / `kernel32::CloseHandle` and the
thread-local last OS error read by `io::Error::last_os_error()`) are modelled as
an oracle structure; each driver additionally returns the ordered trace of the
collaborator calls it makes, so that call-count properties are statable.
-/

/-- Model of `std::io::Error`: an OS error code together with its `Display`
and `Debug` renderings (the renderings are opaque data of the collaborator). -/
structure IOError where
  code : Int
  displayStr : String
  debugStr : String
deriving DecidableEq

/-- The `Display` rendering of an `io::Error`, written onto a formatter buffer. -/
def IOError.fmtDisplay (e : IOError) (buf : String) : String :=
  buf ++ e.displayStr

/-- The `Debug` rendering of an `io::Error`, written onto a formatter buffer. -/
def IOError.fmtDebug (e : IOError) (buf : String) : String :=
  buf ++ e.debugStr

/-- `std::os::fd::RawFd` is `c_int`; modelled as an integer. -/
abbrev RawFd := Int

/-- `std::os::windows::io::RawHandle` is a raw pointer value; modelled as an
integer (only its identity matters to this crate). -/
abbrev RawHandle := Int

/-- `std::fs::File` under `cfg(unix)`: owner of a raw file descriptor. -/
structure FileUnix where
  fd : RawFd
deriving DecidableEq

/-- `IntoRawFd::into_raw_fd`: consumes the file and yields its descriptor
without performing any OS call (non-failing, non-releasing). -/
def FileUnix.into_raw_fd (self : FileUnix) : RawFd :=
  self.fd

/-- `std::fs::File` under `cfg(windows)`: owner of a raw handle. -/
structure FileWindows where
  handle : RawHandle
deriving DecidableEq

/-- `IntoRawHandle::into_raw_handle`: consumes the file and yields its handle
without performing any OS call (non-failing, non-releasing). -/
def FileWindows.into_raw_handle (self : FileWindows) : RawHandle :=
  self.handle

/-- `CloseError` (lib.rs lines 34-40) as compiled under `cfg(unix)`: the
wrapped `io::Error` plus the raw descriptor field `fd`. -/
structure CloseErrorUnix where
  io_error : IOError
  fd : RawFd
deriving DecidableEq

/-- `CloseError` (lib.rs lines 34-40) as compiled under `cfg(windows)`: the
wrapped `io::Error` plus the raw handle field `handle`. -/
structure CloseErrorWindows where
  io_error : IOError
  handle : RawHandle
deriving DecidableEq

/-- `CloseError::raw_fd` (lib.rs lines 48-51): returns the stored descriptor. -/
def CloseErrorUnix.raw_fd (self : CloseErrorUnix) : RawFd :=
  self.fd

/-- `CloseError::as_io_error` (lib.rs lines 63-66), unix compilation: returns
the wrapped I/O error. -/
def CloseErrorUnix.as_io_error (self : CloseErrorUnix) : IOError :=
  self.io_error

/-- `CloseError::raw_handle` (lib.rs lines 58-61): returns the stored handle. -/
def CloseErrorWindows.raw_handle (self : CloseErrorWindows) : RawHandle :=
  self.handle

/-- `CloseError::as_io_error` (lib.rs lines 63-66), windows compilation:
returns the wrapped I/O error. -/
def CloseErrorWindows.as_io_error (self : CloseErrorWindows) : IOError :=
  self.io_error

/-- A call of `raw_fd` through a shared reference, modelled with explicit
state passing: the returned value paired with the receiver after the call.
The Rust body (`self.fd` under `&self`) only reads a field, so the
translation returns the receiver unchanged. -/
def CloseErrorUnix.raw_fd_call (self : CloseErrorUnix) : RawFd × CloseErrorUnix :=
  (self.raw_fd, self)

/-- A call of `as_io_error` through a shared reference (unix), with explicit
state passing; the body only reads `self.io_error`. -/
def CloseErrorUnix.as_io_error_call (self : CloseErrorUnix) : IOError × CloseErrorUnix :=
  (self.as_io_error, self)

/-- A call of `raw_handle` through a shared reference, with explicit state
passing; the body only reads `self.handle`. -/
def CloseErrorWindows.raw_handle_call (self : CloseErrorWindows) : RawHandle × CloseErrorWindows :=
  (self.raw_handle, self)

/-- A call of `as_io_error` through a shared reference (windows), with explicit
state passing; the body only reads `self.io_error`. -/
def CloseErrorWindows.as_io_error_call (self : CloseErrorWindows) : IOError × CloseErrorWindows :=
  (self.as_io_error, self)

/-- `impl fmt::Display for CloseError` (lib.rs lines 75-79), unix compilation:
delegates to the wrapped error's own `Display`. -/
def CloseErrorUnix.fmtDisplay (self : CloseErrorUnix) (buf : String) : String :=
  IOError.fmtDisplay self.io_error buf

/-- `impl fmt::Debug for CloseError` (lib.rs lines 81-85), unix compilation:
delegates to the wrapped error's own `Debug`. -/
def CloseErrorUnix.fmtDebug (self : CloseErrorUnix) (buf : String) : String :=
  IOError.fmtDebug self.io_error buf

/-- `impl fmt::Display for CloseError` (lib.rs lines 75-79), windows
compilation: delegates to the wrapped error's own `Display`. -/
def CloseErrorWindows.fmtDisplay (self : CloseErrorWindows) (buf : String) : String :=
  IOError.fmtDisplay self.io_error buf

/-- `impl fmt::Debug for CloseError` (lib.rs lines 81-85), windows
compilation: delegates to the wrapped error's own `Debug`. -/
def CloseErrorWindows.fmtDebug (self : CloseErrorWindows) (buf : String) : String :=
  IOError.fmtDebug self.io_error buf

/-- `impl std::error::Error for CloseError {}` (lib.rs line 69), unix
compilation: the impl block is empty, so `source` is the trait default, which
per the std contract returns `None`. -/
def CloseErrorUnix.source (_self : CloseErrorUnix) : Option IOError :=
  none

/-- `impl std::error::Error for CloseError {}` (lib.rs line 69), windows
compilation: the impl block is empty, so `source` is the trait default, which
per the std contract returns `None`. -/
def CloseErrorWindows.source (_self : CloseErrorWindows) : Option IOError :=
  none

/-- One observable call to an OS collaborator made by a close driver. -/
inductive SysEvent where
  | closeFd (fd : RawFd)
  | closeHandle (h : RawHandle)
  | readLastOsError
deriving DecidableEq

/-- The unix OS collaborators: the return code `libc::close` produces for a
given descriptor, and the thread-local last OS error as read by
`io::Error::last_os_error()` immediately after the close call. -/
structure OsUnix where
  closeRet : RawFd → Int
  lastOsError : IOError

/-- The windows OS collaborators: the return code `kernel32::CloseHandle`
produces for a given handle, and the thread-local last OS error as read by
`io::Error::last_os_error()` immediately after the close call. -/
structure OsWindows where
  closeHandleRet : RawHandle → Int
  lastOsError : IOError

/-- Result of one `close(self)` call.  Rust operations that can panic are
translated to `panicked`; the two close bodies contain none
(`into_raw_fd` / `into_raw_handle`, the raw syscall and `last_os_error` are
all non-panicking), so the constructor marks what the claims rule out. -/
inductive CallResult (ε : Type) where
  | ok : CallResult ε
  | err : ε → CallResult ε
  | panicked : CallResult ε
deriving DecidableEq

/-- `impl Closable for fs::File` under `cfg(unix)` (lib.rs lines 93-105):
`into_raw_fd`, one `libc::close(fd)`, then the branch exactly as written in
the source — `if rc == -1` returns `Ok(())`, otherwise `last_os_error` is
read and a `CloseError` carrying it and `fd` is returned.  The second
component records the OS-collaborator calls in order. -/
def closeUnix (os : OsUnix) (self : FileUnix) :
    CallResult CloseErrorUnix × List SysEvent :=
  let fd := self.into_raw_fd
  let rc := os.closeRet fd
  if rc = -1 then
    (CallResult.ok, [SysEvent.closeFd fd])
  else
    (CallResult.err { io_error := os.lastOsError, fd := fd },
      [SysEvent.closeFd fd, SysEvent.readLastOsError])

/-- `impl Closable for fs::File` under `cfg(windows)` (lib.rs lines 114-126):
`into_raw_handle`, one `kernel32::CloseHandle(handle)`, then `if rc != 0`
returns `Ok(())`, otherwise `last_os_error` is read and a `CloseError`
carrying it and `handle` is returned.  The second component records the
OS-collaborator calls in order. -/
def closeWindows (os : OsWindows) (self : FileWindows) :
    CallResult CloseErrorWindows × List SysEvent :=
  let handle := self.into_raw_handle
  let rc := os.closeHandleRet handle
  if rc ≠ 0 then
    (CallResult.ok, [SysEvent.closeHandle handle])
  else
    (CallResult.err { io_error := os.lastOsError, handle := handle },
      [SysEvent.closeHandle handle, SysEvent.readLastOsError])

/-- The two shapes of retry material the spec distinguishes for a failed
close: merely a raw handle value, or an owned, usable file object. -/
inductive RetryMaterial where
  | rawHandleValue (h : RawHandle)
  | fileObject (f : FileWindows)
deriving DecidableEq

/-- Whether retry material is an owned file object. -/
def RetryMaterial.isFileObject : RetryMaterial → Bool
  | RetryMaterial.fileObject _ => true
  | RetryMaterial.rawHandleValue _ => false

/-- What a windows `CloseError` hands the caller as retry material: the source
stores the raw handle (field `handle: RawHandle`, lib.rs line 39) and exposes
it only through `raw_handle` (lib.rs lines 58-61); no file object is
reconstructed anywhere in the windows impl. -/
def CloseErrorWindows.retryMaterial (self : CloseErrorWindows) : RetryMaterial :=
  RetryMaterial.rawHandleValue self.raw_handle

/-- Number of invocations of an OS close primitive recorded in a trace. -/
def countCloseCalls (tr : List SysEvent) : Nat :=
  tr.countP fun ev =>
    match ev with
    | SysEvent.closeFd _ => true
    | SysEvent.closeHandle _ => true
    | SysEvent.readLastOsError => false

/-- A sample OS error (EBADF), used for concrete evaluations. -/
def errEbadf : IOError :=
  { code := 9
    displayStr := "Bad file descriptor (os error 9)"
    debugStr := "Os, code 9, kind Uncategorized, message Bad file descriptor" }

/-- A unix oracle whose close primitive reports success (returns 0). -/
def osUnixSucc : OsUnix :=
  { closeRet := fun _ => 0, lastOsError := errEbadf }

/-- A unix oracle whose close primitive reports failure (returns -1). -/
def osUnixFail : OsUnix :=
  { closeRet := fun _ => -1, lastOsError := errEbadf }

/-- A windows oracle whose close primitive reports success (returns 1). -/
def osWinSucc : OsWindows :=
  { closeHandleRet := fun _ => 1, lastOsError := errEbadf }

/-- A windows oracle whose close primitive reports failure (returns 0). -/
def osWinFail : OsWindows :=
  { closeHandleRet := fun _ => 0, lastOsError := errEbadf }

/-- A pair of distinct unix oracles that agree on descriptor 3 and on the
last OS error, but differ elsewhere; used to witness determinism. -/
def osUnixA : OsUnix :=
  { closeRet := fun fd => if fd = 3 then 0 else 7, lastOsError := errEbadf }

/-- Second unix oracle of the determinism witness pair. -/
def osUnixB : OsUnix :=
  { closeRet := fun fd => if fd = 3 then 0 else 8, lastOsError := errEbadf }

/-- A pair of distinct windows oracles that agree on handle 7 and on the
last OS error, but differ elsewhere; used to witness determinism. -/
def osWinA : OsWindows :=
  { closeHandleRet := fun h => if h = 7 then 0 else 5, lastOsError := errEbadf }

/-- Second windows oracle of the determinism witness pair. -/
def osWinB : OsWindows :=
  { closeHandleRet := fun h => if h = 7 then 0 else 6, lastOsError := errEbadf }

/-- Claim C1.  The claim states the OS convention: the unix driver should
return `Ok(())` exactly when `libc::close` returns 0 and a `CloseError`
exactly when it returns -1.  The code (lib.rs lines 99-103) takes the two
branches the other way around: evaluated at descriptor 3, a run whose close
primitive returns 0 (success) yields a `CloseError`, and a run whose close
primitive returns -1 (failure) yields `Ok(())`, contradicting the crate's
own documentation and its test. -/
theorem c1_unix_branch_inverted :
    (closeUnix osUnixSucc { fd := 3 }).1
      = CallResult.err { io_error := errEbadf, fd := 3 }
    ∧ (closeUnix osUnixFail { fd := 3 }).1 = CallResult.ok := by
  constructor
  · rfl
  · rfl

/-- Claim C2: the windows driver returns `Ok(())` exactly when the OS
handle-close primitive returns a nonzero value, and returns a `CloseError`
carrying the last OS error and the handle exactly when it returns zero. -/
theorem c2_windows_branch (os : OsWindows) (f : FileWindows) :
    ((closeWindows os f).1 = CallResult.ok
      ↔ os.closeHandleRet f.into_raw_handle ≠ 0)
    ∧ ((closeWindows os f).1
        = CallResult.err { io_error := os.lastOsError, handle := f.into_raw_handle }
      ↔ os.closeHandleRet f.into_raw_handle = 0) := by
  unfold closeWindows
  by_cases h : os.closeHandleRet f.into_raw_handle = 0 <;> simp [h]

/-- Witness for C2 at a concrete oracle and file: the primitive returns 1
(nonzero), so the close succeeds. -/
theorem c2_windows_branch_witness :
    (closeWindows osWinSucc { handle := 7 }).1 = CallResult.ok :=
  (c2_windows_branch osWinSucc { handle := 7 }).1.mpr (by decide)

/-- Claim C3 as stated is false: at a concrete failing windows close (handle
5, primitive returns 0) the returned `CloseError` carries merely the raw
handle value, exposed through `raw_handle`; its retry material is not a
reconstructed file object. -/
theorem c3_counterexample :
    (closeWindows osWinFail { handle := 5 }).1
      = CallResult.err { io_error := errEbadf, handle := 5 }
    ∧ RetryMaterial.isFileObject
        (CloseErrorWindows.retryMaterial { io_error := errEbadf, handle := 5 })
      = false := by
  constructor
  · rfl
  · rfl

/-- Claim C3 amended: on windows, every failing close returns a `CloseError`
that carries the same underlying raw handle the file object held, exposed via
`raw_handle` as a raw handle value (not as a reconstructed file object). -/
theorem c3_amended_error_carries_raw_handle (os : OsWindows) (f : FileWindows)
    (e : CloseErrorWindows)
    (h : (closeWindows os f).1 = CallResult.err e) :
    e.raw_handle = f.into_raw_handle
    ∧ e.retryMaterial = RetryMaterial.rawHandleValue f.into_raw_handle := by
  unfold closeWindows at h
  by_cases hrc : os.closeHandleRet f.into_raw_handle = 0
  · simp [hrc] at h
    subst h
    exact ⟨rfl, rfl⟩
  · simp [hrc] at h

/-- Witness for the amended C3 at a concrete failing close (handle 5). -/
theorem c3_amended_witness :
    CloseErrorWindows.raw_handle { io_error := errEbadf, handle := 5 }
      = FileWindows.into_raw_handle { handle := 5 }
    ∧ CloseErrorWindows.retryMaterial { io_error := errEbadf, handle := 5 }
      = RetryMaterial.rawHandleValue (FileWindows.into_raw_handle { handle := 5 }) :=
  c3_amended_error_carries_raw_handle osWinFail { handle := 5 }
    { io_error := errEbadf, handle := 5 } (by decide)

/-- Claim C4: on both compilations, `CloseError`'s `Display` output equals
the wrapped OS error's `Display` output and its `Debug` output equals the
wrapped OS error's `Debug` output, on every formatter buffer. -/
theorem c4_display_debug_passthrough (eu : CloseErrorUnix)
    (ew : CloseErrorWindows) (buf : String) :
    eu.fmtDisplay buf = IOError.fmtDisplay eu.io_error buf
    ∧ eu.fmtDebug buf = IOError.fmtDebug eu.io_error buf
    ∧ ew.fmtDisplay buf = IOError.fmtDisplay ew.io_error buf
    ∧ ew.fmtDebug buf = IOError.fmtDebug ew.io_error buf :=
  ⟨rfl, rfl, rfl, rfl⟩

/-- Claim C5: on unix, every close invocation that produces a `CloseError`
stores in it exactly the raw descriptor the file object held immediately
before the OS close primitive was invoked, as returned by `raw_fd`. -/
theorem c5_unix_error_carries_fd (os : OsUnix) (f : FileUnix)
    (e : CloseErrorUnix)
    (h : (closeUnix os f).1 = CallResult.err e) :
    e.raw_fd = f.into_raw_fd := by
  unfold closeUnix at h
  by_cases hrc : os.closeRet f.into_raw_fd = -1
  · simp [hrc] at h
  · simp [hrc] at h
    subst h
    rfl

/-- Witness for C5 at a concrete erroring close (descriptor 3, primitive
returns 0, which the inverted unix branch maps to the error case). -/
theorem c5_unix_error_carries_fd_witness :
    CloseErrorUnix.raw_fd { io_error := errEbadf, fd := 3 }
      = FileUnix.into_raw_fd { fd := 3 } :=
  c5_unix_error_carries_fd osUnixSucc { fd := 3 }
    { io_error := errEbadf, fd := 3 } (by decide)

/-- Claim C6: on both platform drivers, every close invocation terminates
with a returned value — `Ok(())` or a `CloseError` — and never with a panic
(`CallResult.panicked` is unreachable from either driver). -/
theorem c6_close_never_panics (osU : OsUnix) (fU : FileUnix)
    (osW : OsWindows) (fW : FileWindows) :
    ((closeUnix osU fU).1 = CallResult.ok
      ∨ ∃ e, (closeUnix osU fU).1 = CallResult.err e)
    ∧ ((closeWindows osW fW).1 = CallResult.ok
      ∨ ∃ e, (closeWindows osW fW).1 = CallResult.err e) := by
  constructor
  · unfold closeUnix
    by_cases h : osU.closeRet fU.into_raw_fd = -1
    · left
      simp [h]
    · right
      exact ⟨{ io_error := osU.lastOsError, fd := fU.into_raw_fd }, by simp [h]⟩
  · unfold closeWindows
    by_cases h : osW.closeHandleRet fW.into_raw_handle = 0
    · right
      exact ⟨{ io_error := osW.lastOsError, handle := fW.into_raw_handle }, by simp [h]⟩
    · left
      simp [h]

/-- Claim C7: the accessors `as_io_error`, `raw_fd` and `raw_handle` take the
error by shared reference and do not modify it — as state-passing calls they
return the receiver unchanged — and they always return the stored OS error
and the stored descriptor/handle value. -/
theorem c7_accessors_readonly (eu : CloseErrorUnix) (ew : CloseErrorWindows) :
    eu.as_io_error_call = (eu.io_error, eu)
    ∧ eu.raw_fd_call = (eu.fd, eu)
    ∧ ew.as_io_error_call = (ew.io_error, ew)
    ∧ ew.raw_handle_call = (ew.handle, ew) :=
  ⟨rfl, rfl, rfl, rfl⟩

/-- Claim C8: on both platform drivers, every close invocation records
exactly one call to an OS close primitive in its trace, whether the
primitive reports success or failure: no retry, no second close. -/
theorem c8_primitive_called_once (osU : OsUnix) (fU : FileUnix)
    (osW : OsWindows) (fW : FileWindows) :
    countCloseCalls (closeUnix osU fU).2 = 1
    ∧ countCloseCalls (closeWindows osW fW).2 = 1 := by
  constructor
  · unfold closeUnix
    by_cases h : osU.closeRet fU.into_raw_fd = -1 <;> simp [h, countCloseCalls]
  · unfold closeWindows
    by_cases h : osW.closeHandleRet fW.into_raw_handle = 0 <;> simp [h, countCloseCalls]

/-- Claim C9: close is deterministic.  Two runs (with possibly different
oracles) that agree on the raw descriptor/handle, on the close primitive's
return code there, and on the thread-local last OS error produce the same
result: same branch, and in the error case the same stored OS error and
descriptor/handle. -/
theorem c9_close_deterministic (os1 os2 : OsUnix) (f1 f2 : FileUnix)
    (ow1 ow2 : OsWindows) (g1 g2 : FileWindows)
    (hfd : f1.into_raw_fd = f2.into_raw_fd)
    (hrc : os1.closeRet f1.into_raw_fd = os2.closeRet f2.into_raw_fd)
    (herr : os1.lastOsError = os2.lastOsError)
    (hh : g1.into_raw_handle = g2.into_raw_handle)
    (hrcw : ow1.closeHandleRet g1.into_raw_handle
      = ow2.closeHandleRet g2.into_raw_handle)
    (herrw : ow1.lastOsError = ow2.lastOsError) :
    (closeUnix os1 f1).1 = (closeUnix os2 f2).1
    ∧ (closeWindows ow1 g1).1 = (closeWindows ow2 g2).1 := by
  constructor
  · unfold closeUnix
    rw [hfd] at hrc
    by_cases h : os2.closeRet f2.into_raw_fd = -1
    · have h1 : os1.closeRet f2.into_raw_fd = -1 := hrc.trans h
      simp [h, h1, hfd]
    · have h1 : ¬os1.closeRet f2.into_raw_fd = -1 := fun hc => h (hrc.symm.trans hc)
      simp [h, h1, herr, hfd]
  · unfold closeWindows
    rw [hh] at hrcw
    by_cases h : ow2.closeHandleRet g2.into_raw_handle = 0
    · have h1 : ow1.closeHandleRet g2.into_raw_handle = 0 := hrcw.trans h
      simp [h, h1, herrw, hh]
    · have h1 : ¬ow1.closeHandleRet g2.into_raw_handle = 0 := fun hc => h (hrcw.symm.trans hc)
      simp [h, h1, hh]

/-- Witness for C9: two distinct unix oracles agreeing at descriptor 3 and
two distinct windows oracles agreeing at handle 7 produce identical results. -/
theorem c9_close_deterministic_witness :
    (closeUnix osUnixA { fd := 3 }).1 = (closeUnix osUnixB { fd := 3 }).1
    ∧ (closeWindows osWinA { handle := 7 }).1
      = (closeWindows osWinB { handle := 7 }).1 :=
  c9_close_deterministic osUnixA osUnixB { fd := 3 } { fd := 3 }
    osWinA osWinB { handle := 7 } { handle := 7 }
    (by decide) (by decide) (by decide) (by decide) (by decide) (by decide)

/-- Claim C10: the `std::error::Error` impl for `CloseError` is the empty
impl block, so `source()` is the trait default and returns `None` on both
compilations; the wrapped OS error is reachable only through `as_io_error`,
which returns exactly the stored error. -/
theorem c10_error_source_is_none (eu : CloseErrorUnix) (ew : CloseErrorWindows) :
    eu.source = none ∧ ew.source = none
    ∧ eu.as_io_error = eu.io_error ∧ ew.as_io_error = ew.io_error :=
  ⟨rfl, rfl, rfl, rfl⟩
